import Mathlib

/-!
Shallow embedding of the MiniCrm backend's role-scoped access-control layer,
session lifecycle, and audit-trail writer, with theorems checking the
natural-language specification against the code.

Source units embedded:
* `src/server/src/middleware/rbac.js` (the unnamed part holding
  `ROLE_PERMISSIONS`, `hasPermission`, `canAccessRecord`, `getDataFilter`,
  `requireRecordAccess`, `buildWhereClause`)
* `src/server/src/controllers/authController.js` (`login`, `refreshToken`,
  `isAccountLocked`, `incrementLoginAttempts`, token store helpers)
* `src/server/src/utils/logger.js` (`auditRecordChange` update diff)
* `src/server/src/controllers/customerController.js` (`updateCustomer`,
  `deleteCustomer`, `getCustomers` RBAC wiring)
* `src/server/src/models/database.js` (schema facts: the `leads.customerId`
  foreign key with `ON DELETE CASCADE`, foreign keys enabled at startup)

JavaScript scalar values stored in rows are modelled by `JsVal`
(string / number / null); JS strict equality `===` on such scalars is
`JsVal` equality, and JS truthiness of a possibly-absent value is
`jsTruthy` below.  Numbers are modelled as `Int`: the embedded code never
does arithmetic on row values, only strict-equality comparison.
-/

namespace MiniCrm

/-- A JavaScript scalar value as it appears in a database row or request
body: a string, a number, or `null`. -/
inductive JsVal where
  | str (s : String)
  | num (n : Int)
  | null
deriving DecidableEq, Repr

/-- JS truthiness of a scalar: empty string, `0` and `null` are falsy. -/
def JsVal.truthy : JsVal → Bool
  | .str s => s ≠ ""
  | .num n => n ≠ 0
  | .null => false

/-- JS truthiness of a possibly-`undefined` scalar (`none` = absent). -/
def jsTruthy : Option JsVal → Bool
  | none => false
  | some v => v.truthy

/-- JS truthiness of a nullable string (`none` = `null`/`undefined`). -/
def truthyStr : Option String → Bool
  | none => false
  | some s => s ≠ ""

/-- The authenticated principal attached to a request (row of `users`
selected by the `authenticate` middleware): `id`, `role`, `teamId`. -/
structure Principal where
  id : String
  role : String
  teamId : Option String
deriving DecidableEq, Repr

/-- The ownership projection of a record fetched by `requireRecordAccess`
(`SELECT ownerId, teamId, assignedTo FROM ... WHERE id = ?`). -/
structure OwnedRecord where
  ownerId : Option String
  teamId : Option String
  assignedTo : Option String
deriving DecidableEq, Repr

/-- `ROLE_PERMISSIONS` from `rbac.js` lines 4-29: the static
role × resource → allowed-actions matrix, as an association list in
source order. -/
def ROLE_PERMISSIONS : List (String × List (String × List String)) :=
  [("admin",
     [("customers", ["create", "read", "update", "delete"]),
      ("leads", ["create", "read", "update", "delete"]),
      ("users", ["create", "read", "update", "delete"]),
      ("teams", ["create", "read", "update", "delete"]),
      ("activities", ["create", "read", "update", "delete"]),
      ("reports", ["read", "export"])]),
   ("manager",
     [("customers", ["create", "read", "update", "delete"]),
      ("leads", ["create", "read", "update", "delete"]),
      ("users", ["read"]),
      ("teams", ["read", "update"]),
      ("activities", ["create", "read", "update", "delete"]),
      ("reports", ["read", "export"])]),
   ("sales_rep",
     [("customers", ["create", "read", "update"]),
      ("leads", ["create", "read", "update"]),
      ("users", ["read"]),
      ("teams", ["read"]),
      ("activities", ["create", "read", "update"]),
      ("reports", ["read"])])]

/-- Outcome of a call to `hasPermission`: a returned boolean, or a
thrown `TypeError`. -/
inductive JsOutcome where
  | ret (b : Bool)
  | throw
deriving DecidableEq, Repr

/-- The method names every plain JS object inherits from
`Object.prototype`, each with the arity (`length`) of the method;
`constructor` and `__proto__` are inherited too but are handled
separately (they do not denote plain methods). -/
def objectProtoMethods : List (String × Nat) :=
  [("toString", 0), ("toLocaleString", 0), ("valueOf", 0),
   ("hasOwnProperty", 1), ("isPrototypeOf", 1), ("propertyIsEnumerable", 1),
   ("__defineGetter__", 2), ("__defineSetter__", 2),
   ("__lookupGetter__", 1), ("__lookupSetter__", 1)]

/-- The own property names of the `Object` constructor function other
than `length`, `name` and `prototype`: its static methods. -/
def objectStaticMethods : List String :=
  ["assign", "create", "defineProperties", "defineProperty", "entries",
   "freeze", "fromEntries", "getOwnPropertyDescriptor",
   "getOwnPropertyDescriptors", "getOwnPropertyNames",
   "getOwnPropertySymbols", "getPrototypeOf", "hasOwn", "is",
   "isExtensible", "isFrozen", "isSealed", "keys", "preventExtensions",
   "seal", "setPrototypeOf", "values"]

/-- The value of `ROLE_PERMISSIONS[user.role]` under JS property-access
semantics: an own key yields that role\'s resource map; any other key
walks the prototype chain of the object literal, so `constructor` yields
the `Object` constructor function, `__proto__` yields the
`Object.prototype` object, and an `Object.prototype` method name yields
that (truthy) method; everything else is `undefined`. -/
inductive RoleLookupVal where
  | rmap (resources : List (String × List String))
  | objectCtor
  | objectProto
  | protoFn (name : String) (arity : Nat)
  | undefinedVal
deriving DecidableEq, Repr

/-- `ROLE_PERMISSIONS[user.role]` (`rbac.js` line 35) with the prototype
chain of the object literal included. -/
def rolePermissionsLookup (role : String) : RoleLookupVal :=
  match ROLE_PERMISSIONS.lookup role with
  | some m => .rmap m
  | none =>
    if role = "constructor" then .objectCtor
    else if role = "__proto__" then .objectProto
    else
      match objectProtoMethods.lookup role with
      | some ar => .protoFn role ar
      | none => .undefinedVal

/-- A JS value reachable as `rolePermissions[resource]`, distinguished
as far as the rest of the function can observe it (truthiness and the
behaviour of `.includes`): an array of strings, a string, a number, some
function, some non-array object, `null`, or `undefined`. -/
inductive PropVal where
  | arr (l : List String)
  | strv (s : String)
  | numv (n : Nat)
  | fnval
  | objval
  | nullval
  | undefinedVal
deriving DecidableEq, Repr

/-- JS truthiness of such a value: every array and function and non-null
object is truthy; the empty string, `0`, `null` and `undefined` are
falsy. -/
def PropVal.truthy : PropVal → Bool
  | .arr _ => true
  | .strv s => s ≠ ""
  | .numv n => n ≠ 0
  | .fnval => true
  | .objval => true
  | .nullval => false
  | .undefinedVal => false

/-- Result of the property access `rolePermissions[resource]` itself:
a value, or a throwing accessor (`arguments`/`caller` on a function). -/
inductive PropAccess where
  | val (v : PropVal)
  | accessorThrow
deriving DecidableEq, Repr

/-- The properties every function value exposes besides its own `name`
and `length`: the `Function.prototype` members (where `arguments` and
`caller` are accessors that throw for these functions) and, one level
up, the `Object.prototype` members; other names are `undefined`. -/
def functionInheritedProp (resource : String) : PropAccess :=
  if resource = "apply" ∨ resource = "bind" ∨ resource = "call" ∨
      resource = "toString" ∨ resource = "constructor" then .val .fnval
  else if resource = "arguments" ∨ resource = "caller" then .accessorThrow
  else if resource = "__proto__" then .val .objval
  else if (objectProtoMethods.lookup resource).isSome then .val .fnval
  else .val .undefinedVal

/-- JS property access `rolePermissions[resource]` (`rbac.js` line 38)
for each value the role lookup can produce: on a resource map, an own
key yields its action array and other keys walk the object prototype
chain; on the `Object` constructor, `name` is the string `"Object"`,
`length` the number 1, `prototype` an object, static-method names and
inherited function members are functions; on a plain inherited method,
`name`/`length` are its own and the rest is function-inherited; on
`Object.prototype`, its methods and `constructor` are functions and its
`__proto__` is `null`.  (The `undefinedVal` arm is unreachable: the source
returns false on a falsy `rolePermissions` first.) -/
def propertyOfRoleVal : RoleLookupVal → String → PropAccess
  | .rmap m, resource =>
    match m.lookup resource with
    | some perms => .val (.arr perms)
    | none =>
      if resource = "constructor" then .val .fnval
      else if resource = "__proto__" then .val .objval
      else if (objectProtoMethods.lookup resource).isSome then .val .fnval
      else .val .undefinedVal
  | .objectCtor, resource =>
    if resource = "name" then .val (.strv "Object")
    else if resource = "length" then .val (.numv 1)
    else if resource = "prototype" then .val .objval
    else if objectStaticMethods.contains resource then .val .fnval
    else functionInheritedProp resource
  | .protoFn nm ar, resource =>
    if resource = "name" then .val (.strv nm)
    else if resource = "length" then .val (.numv ar)
    else functionInheritedProp resource
  | .objectProto, resource =>
    if resource = "constructor" then .val .fnval
    else if resource = "__proto__" then .val .nullval
    else
      match objectProtoMethods.lookup resource with
      | some _ => .val .fnval
      | none => .val .undefinedVal
  | .undefinedVal, _ => .val .undefinedVal

/-- Substring containment on character lists: some suffix of the
haystack starts with the needle (`String.prototype.includes`). -/
def charsContain (needle : List Char) : List Char → Bool
  | [] => needle.isEmpty
  | c :: rest => needle.isPrefixOf (c :: rest) || charsContain needle rest

/-- `resourcePermissions.includes(permission)` (`rbac.js` line 41):
`Array.prototype.includes` is membership, `String.prototype.includes`
is substring containment, and any other value has no `includes` method,
so the call throws a `TypeError`.  (Falsy values never reach this call:
the source returns false on them first.) -/
def jsIncludes : PropVal → String → JsOutcome
  | .arr l, p => .ret (l.contains p)
  | .strv s, p => .ret (charsContain p.toList s.toList)
  | _, _ => .throw

/-- `hasPermission(user, resource, permission)` from `rbac.js` lines
32-42 under JavaScript property-access semantics: `none` models a
missing `user` and `u.role = ""` the falsy `!user.role` check; the
indexings `ROLE_PERMISSIONS[user.role]` and `rolePermissions[resource]`
traverse the prototype chain, so inherited keys such as `constructor`,
`toString` or `name` yield truthy non-matrix values that pass the
`if (!...) return false` guards; the final `.includes(permission)` is
array membership on a matrix entry, substring containment on a string,
and a thrown `TypeError` on any other value. -/
def hasPermission (user : Option Principal) (resource permission : String) :
    JsOutcome :=
  match user with
  | none => .ret false
  | some u =>
    if u.role = "" then .ret false
    else
      let rolePermissions := rolePermissionsLookup u.role
      if rolePermissions = .undefinedVal then .ret false
      else
        match propertyOfRoleVal rolePermissions resource with
        | .accessorThrow => .throw
        | .val resourcePermissions =>
          if ¬ resourcePermissions.truthy then .ret false
          else jsIncludes resourcePermissions permission

/-- The actions the matrix grants to `role` on `resource`
(`ROLE_PERMISSIONS[role][resource]`, empty when either key is absent). -/
def matrixActions (role resource : String) : List String :=
  ((ROLE_PERMISSIONS.lookup role).bind (fun rp => rp.lookup resource)).getD []

/-- `canAccessRecord(user, record)` from `rbac.js` lines 45-61: admin
always; manager on team match; then anyone on `ownerId` or `assignedTo`
match.  Option equality `r.teamId = u.teamId` matches JS `===` on
nullable columns (`null === null` is `true`). -/
def canAccessRecord (user : Option Principal) (record : Option OwnedRecord) : Bool :=
  match user, record with
  | some u, some r =>
    if u.role = "admin" then true
    else if u.role = "manager" ∧ r.teamId = u.teamId then true
    else if r.ownerId = some u.id then true
    else if r.assignedTo = some u.id then true
    else false
  | _, _ => false

/-- The row filter object produced by `getDataFilter`: optional `ownerId`
and `teamId` keys (a key set to `null` is `some`-with-`none` collapsed to
`none` here, since a JS property holding `null` and the property's absence
behave identically under the truthiness tests in `buildWhereClause`). -/
structure DataFilter where
  ownerId : Option String := none
  teamId : Option String := none
deriving DecidableEq, Repr

/-- `getDataFilter(user)` from `rbac.js` lines 64-75: `null` for no user,
`{}` for admin, `{teamId}` for manager, `{ownerId}` otherwise. -/
def getDataFilter (user : Option Principal) : Option DataFilter :=
  match user with
  | none => none
  | some u =>
    if u.role = "admin" then some {}
    else if u.role = "manager" then some { teamId := u.teamId }
    else some { ownerId := some u.id }

/-- One conjunct of the SQL `WHERE` clause built by `buildWhereClause`:
the caller-supplied base condition (search/status/..., abstracted as `β`),
or an `ownerId = ?` / `teamId = ?` equality with its bound parameter. -/
inductive WhereCond (β : Type) where
  | base (b : β)
  | ownerEq (v : String)
  | teamEq (v : String)
deriving DecidableEq, Repr

/-- `buildWhereClause(baseWhere, filter, ...)` from `rbac.js` lines
194-214, as the list of conjuncts it emits in source order: the base
condition when the `baseWhere` string is truthy (`none` models the falsy
empty string), then `ownerId = ?` when `filter.ownerId` is truthy, then
`teamId = ?` when `filter.teamId` is truthy. -/
def buildWhereClause (baseWhere : Option β) (filter : DataFilter) : List (WhereCond β) :=
  (match baseWhere with
   | none => []
   | some b => [WhereCond.base b]) ++
  (if truthyStr filter.ownerId then [WhereCond.ownerEq (filter.ownerId.getD "")] else []) ++
  (if truthyStr filter.teamId then [WhereCond.teamEq (filter.teamId.getD "")] else [])

/-- The ownership columns of a `customers`/`leads` row as seen by the list
query (`c.ownerId`, `c.teamId`; nullable `teamId`). -/
structure ListRow where
  ownerId : Option String
  teamId : Option String
deriving DecidableEq, Repr

/-- SQL evaluation of one `WHERE` conjunct on a row: `col = ?` is true
iff the column is non-NULL and equal to the parameter (SQL three-valued
logic: `NULL = x` is not true). -/
def evalCond (evalBase : β → ListRow → Bool) (row : ListRow) : WhereCond β → Bool
  | .base b => evalBase b row
  | .ownerEq v => row.ownerId = some v
  | .teamEq v => row.teamId = some v

/-- A row satisfies the built `WHERE` clause iff every conjunct holds
(the conjuncts are joined with `AND`; an empty list means no `WHERE`
clause, which every row satisfies). -/
def rowPasses (evalBase : β → ListRow → Bool) (conds : List (WhereCond β)) (row : ListRow) : Bool :=
  conds.all (evalCond evalBase row)

/-- Whether a row satisfies the caller-supplied search/status conditions
alone (`true` when the caller supplied none). -/
def basePass (evalBase : β → ListRow → Bool) (baseWhere : Option β) (row : ListRow) : Bool :=
  match baseWhere with
  | none => true
  | some b => evalBase b row

/-- The `WHERE` conjuncts of `GET /customers` / `GET /leads` for an
authenticated principal `u`: `applyDataFilter` stores
`getDataFilter(req.user)` in `req.dataFilter` and the controller passes it
to `buildWhereClause` (`customerController.js` lines 54-60). -/
def listWhere (u : Principal) (baseWhere : Option β) : List (WhereCond β) :=
  buildWhereClause baseWhere ((getDataFilter (some u)).getD {})

/-- Outcome of the `requireRecordAccess` middleware (`rbac.js` lines
99-177), identified by the HTTP response it sends or `proceed` for
`next()`. -/
inductive AccessOutcome where
  | authRequired
  | idRequired
  | notFound
  | forbidden
  | proceed
deriving DecidableEq, Repr

/-- `requireRecordAccess` from `rbac.js` lines 99-177 for the
customer/lead resource types: 401 without a principal, 400 without an id
(falsy check on `req.params.id`), then the record fetch (`fetch` models
`database.get` of the ownership columns by id), 404 when no row, 403 when
`canAccessRecord` denies, else `next()`. -/
def requireRecordAccess (user : Option Principal) (resourceId : Option String)
    (fetch : String → Option OwnedRecord) : AccessOutcome :=
  match user with
  | none => .authRequired
  | some u =>
    if ¬ truthyStr resourceId then .idRequired
    else
      match fetch (resourceId.getD "") with
      | none => .notFound
      | some record =>
        if canAccessRecord (some u) (some record) then .proceed else .forbidden

/-! ### Credential & Token Service (`authController.js`) -/

/-- The security configuration from `config.js`: `maxLoginAttempts`
(default 5) and `lockTime` in milliseconds (default 30 minutes). -/
structure SecurityConfig where
  maxLoginAttempts : Nat
  lockTime : Int
deriving DecidableEq, Repr

/-- A `users` row as the login path reads it: credentials, active flag,
failure counter and lockout timestamp (milliseconds since epoch,
`none` = SQL `NULL`). `password` holds the stored bcrypt hash. -/
structure DbUser where
  id : String
  email : String
  password : String
  isActive : Bool
  loginAttempts : Nat
  lockUntil : Option Int
deriving DecidableEq, Repr

/-- `isAccountLocked(user)` from `authController.js` lines 51-53:
`user.lockUntil && user.lockUntil > Date.now()` — the truthiness of the
numeric `lockUntil` (falsy when `null` or `0`) then the comparison. -/
def isAccountLocked (u : DbUser) (now : Int) : Bool :=
  match u.lockUntil with
  | none => false
  | some t => t ≠ 0 ∧ now < t

/-- `incrementLoginAttempts(userId)` from `authController.js` lines
56-69, acting on the user's row: bump the counter, and set `lockUntil`
to `now + lockTime` when the counter reaches the threshold, else
`NULL`. -/
def incrementLoginAttempts (cfg : SecurityConfig) (u : DbUser) (now : Int) : DbUser :=
  let attempts := u.loginAttempts + 1
  let lockUntil := if cfg.maxLoginAttempts ≤ attempts then some (now + cfg.lockTime) else none
  { u with loginAttempts := attempts, lockUntil := lockUntil }

/-- `resetLoginAttempts(userId)` from `authController.js` lines 72-77. -/
def resetLoginAttempts (u : DbUser) : DbUser :=
  { u with loginAttempts := 0, lockUntil := none }

/-- The HTTP response of a login attempt, or `success` with the logged-in
user's id.  Error responses carry the literal status code and message the
controller sends. -/
inductive LoginOutcome where
  | res (status : Nat) (message : String)
  | success (userId : String)
deriving DecidableEq, Repr

/-- `SELECT * FROM users WHERE email = ?` (first matching row). -/
def findUserByEmail (users : List DbUser) (email : String) : Option DbUser :=
  users.find? (fun u => u.email = email)

/-- Replace the row with the given id (models `UPDATE users ... WHERE
id = ?`). -/
def updateUserRow (users : List DbUser) (uid : String) (f : DbUser → DbUser) : List DbUser :=
  users.map (fun u => if u.id = uid then f u else u)

/-- `login` from `authController.js` lines 98-194, after input
validation: look up by email (401 `Invalid credentials` when absent),
lockout check (423), active check (401), bcrypt comparison (modelled by
the black-box `verify password storedHash`; on mismatch increment the
failure counter and answer 401 `Invalid credentials`), and on success
reset the counter.  Returns the outcome and the updated `users` table. -/
def login (cfg : SecurityConfig) (verify : String → String → Bool)
    (users : List DbUser) (email password : String) (now : Int) :
    LoginOutcome × List DbUser :=
  match findUserByEmail users email with
  | none => (.res 401 "Invalid credentials", users)
  | some user =>
    if isAccountLocked user now then
      (.res 423 "Account temporarily locked due to too many failed login attempts", users)
    else if ¬ user.isActive then
      (.res 401 "Account is inactive", users)
    else if ¬ verify password user.password then
      (.res 401 "Invalid credentials",
       updateUserRow users user.id (fun u => incrementLoginAttempts cfg u now))
    else
      (.success user.id, updateUserRow users user.id resetLoginAttempts)

/-- A sequence of login attempts with the same email and password at the
given times, threading the `users` table through. -/
def loginSeq (cfg : SecurityConfig) (verify : String → String → Bool)
    (users : List DbUser) (email password : String) : List Int → List DbUser
  | [] => users
  | t :: ts => loginSeq cfg verify (login cfg verify users email password t).2 email password ts

/-! ### Refresh-token rotation (`authController.js`) -/

/-- A `refresh_tokens` row.  `expiresAt` is stored as an ISO-8601 string
and compared with `<`; ISO order is chronological, so it is modelled as
an integer timestamp. -/
structure StoredToken where
  id : String
  userId : String
  token : String
  expiresAt : Int
deriving DecidableEq, Repr

/-- The seven-day refresh-token lifetime from `storeRefreshToken`
(`7 * 24 * 60 * 60 * 1000` milliseconds). -/
def sevenDaysMs : Int := 7 * 24 * 60 * 60 * 1000

/-- `storeRefreshToken(userId, refreshToken)` from `authController.js`
lines 29-43: insert a new row expiring seven days out, then purge every
row already expired (`DELETE FROM refresh_tokens WHERE expiresAt < ?`). -/
def storeRefreshToken (tokens : List StoredToken) (tokenId userId tok : String)
    (now : Int) : List StoredToken :=
  let inserted := tokens ++ [{ id := tokenId, userId := userId, token := tok,
                               expiresAt := now + sevenDaysMs }]
  inserted.filter (fun t => ¬ t.expiresAt < now)

/-- `removeRefreshToken(token)` from `authController.js` lines 46-48:
`DELETE FROM refresh_tokens WHERE token = ?`. -/
def removeRefreshToken (tokens : List StoredToken) (tok : String) : List StoredToken :=
  tokens.filter (fun t => ¬ t.token = tok)

/-- The server-side session state the refresh endpoint touches. -/
structure AuthDb where
  users : List DbUser
  tokens : List StoredToken
deriving DecidableEq, Repr

/-- The HTTP response of a refresh call, or `ok` with the user id and the
newly issued refresh token.  The three 401 error shapes are the literal
controller responses. -/
inductive RefreshOutcome where
  | missingToken
  | invalidToken
  | invalidOrExpired
  | userInvalid
  | ok (userId newRefreshToken : String)
deriving DecidableEq, Repr

/-- `refreshToken` from `authController.js` lines 277-348: presence check
on the body token, `jwt.verify` against the refresh secret (modelled by
the black-box `jwtVerify`, returning the decoded `userId` or `none`),
lookup of a stored, unexpired row for that token and user, load of the
still-active user, then rotation: delete the old row, store the freshly
signed token `newTok` (with fresh row id `newTokId`). -/
def refreshCall (jwtVerify : String → Option String) (db : AuthDb)
    (tok : Option String) (now : Int) (newTokId newTok : String) :
    RefreshOutcome × AuthDb :=
  if ¬ truthyStr tok then (.missingToken, db)
  else
    let t := tok.getD ""
    match jwtVerify t with
    | none => (.invalidToken, db)
    | some uid =>
      match db.tokens.find? (fun s => s.token = t ∧ s.userId = uid ∧ now < s.expiresAt) with
      | none => (.invalidOrExpired, db)
      | some _ =>
        match db.users.find? (fun u => u.id = uid ∧ u.isActive) with
        | none => (.userInvalid, db)
        | some user =>
          let tokens1 := removeRefreshToken db.tokens t
          let tokens2 := storeRefreshToken tokens1 newTokId user.id newTok now
          (.ok user.id newTok, { db with tokens := tokens2 })

/-! ### Customers: rows, update endpoint, audit diff, cascade delete -/

/-- A `customers` row (`database.js` lines 84-109).  `id` and `ownerId`
are `NOT NULL TEXT`; the remaining columns are nullable scalars. -/
structure CustomerRow where
  id : String
  name : JsVal
  email : JsVal
  phone : JsVal
  company : JsVal
  status : JsVal
  tags : JsVal
  notes : JsVal
  lastContactDate : JsVal
  ownerId : String
  teamId : JsVal
  assignedTo : JsVal
  source : JsVal
  value : JsVal
  industry : JsVal
  createdBy : JsVal
  updatedBy : JsVal
  createdAt : JsVal
  updatedAt : JsVal
deriving DecidableEq, Repr

/-- The request body of `PUT /customers/:id` as `updateCustomer` reads
it: each field it consults is optionally present (`none` =
`undefined`).  `tags`, when present, is an array and is carried here as
its `JSON.stringify` text (a JS array is always truthy).  The last five
fields are read by no line of `updateCustomer`; they are carried to show
that a caller supplying them cannot influence the update. -/
structure UpdateBody where
  name : Option JsVal := none
  email : Option JsVal := none
  phone : Option JsVal := none
  company : Option JsVal := none
  status : Option JsVal := none
  tags : Option String := none
  notes : Option JsVal := none
  lastContactDate : Option JsVal := none
  value : Option JsVal := none
  industry : Option JsVal := none
  source : Option JsVal := none
  assignedTo : Option JsVal := none
  id : Option JsVal := none
  ownerId : Option JsVal := none
  teamId : Option JsVal := none
  createdBy : Option JsVal := none
  createdAt : Option JsVal := none
deriving DecidableEq, Repr

/-- JS `bodyField || existingField`: the body value when present and
truthy, else the existing value. -/
def jsOr (b : Option JsVal) (e : JsVal) : JsVal :=
  match b with
  | some v => if v.truthy then v else e
  | none => e

/-- JS `bodyField !== undefined ? bodyField : existingField`. -/
def jsIfDefined (b : Option JsVal) (e : JsVal) : JsVal :=
  match b with
  | some v => v
  | none => e

/-- The `updateData` object built by `updateCustomer`
(`customerController.js` lines 269-284), with its fields in insertion
order; `userId` is `req.user.id` and `now` the ISO timestamp. -/
structure UpdateData where
  name : JsVal
  email : JsVal
  phone : JsVal
  company : JsVal
  status : JsVal
  tags : JsVal
  notes : JsVal
  lastContactDate : JsVal
  value : JsVal
  industry : JsVal
  source : JsVal
  assignedTo : JsVal
  updatedBy : JsVal
  updatedAt : JsVal
deriving DecidableEq, Repr

/-- Construction of `updateData` from the request body and the existing
row (`customerController.js` lines 269-284): `||` fallbacks for most
fields, `!== undefined` tests for `notes` and `value`, `JSON.stringify`
for a supplied `tags` array, and fresh `updatedBy`/`updatedAt`. -/
def mkUpdateData (body : UpdateBody) (ex : CustomerRow) (userId now : String) : UpdateData :=
  { name := jsOr body.name ex.name
    email := jsOr body.email ex.email
    phone := jsOr body.phone ex.phone
    company := jsOr body.company ex.company
    status := jsOr body.status ex.status
    tags := match body.tags with
            | some s => .str s
            | none => ex.tags
    notes := jsIfDefined body.notes ex.notes
    lastContactDate := jsOr body.lastContactDate ex.lastContactDate
    value := jsIfDefined body.value ex.value
    industry := jsOr body.industry ex.industry
    source := jsOr body.source ex.source
    assignedTo := jsOr body.assignedTo ex.assignedTo
    updatedBy := .str userId
    updatedAt := .str now }

/-- The `(key, oldData[key], newData[key])` triples visited by the
`update` branch of `auditRecordChange` (`logger.js` lines 469-483):
`Object.keys(newData)` in `updateData`'s insertion order, each key read
from the full existing row and from the new data. -/
def customerUpdateFields (ex : CustomerRow) (upd : UpdateData) :
    List (String × JsVal × JsVal) :=
  [("name", ex.name, upd.name),
   ("email", ex.email, upd.email),
   ("phone", ex.phone, upd.phone),
   ("company", ex.company, upd.company),
   ("status", ex.status, upd.status),
   ("tags", ex.tags, upd.tags),
   ("notes", ex.notes, upd.notes),
   ("lastContactDate", ex.lastContactDate, upd.lastContactDate),
   ("value", ex.value, upd.value),
   ("industry", ex.industry, upd.industry),
   ("source", ex.source, upd.source),
   ("assignedTo", ex.assignedTo, upd.assignedTo),
   ("updatedBy", ex.updatedBy, upd.updatedBy),
   ("updatedAt", ex.updatedAt, upd.updatedAt)]

/-- The change-set written by `auditRecordChange` for a customer update:
only the keys whose old and new values differ under JS `!==`, each as a
`{field: {from, to}}` pair (`logger.js` lines 471-479). -/
def customerUpdateChanges (ex : CustomerRow) (upd : UpdateData) :
    List (String × JsVal × JsVal) :=
  (customerUpdateFields ex upd).filter (fun p => ¬ p.2.1 = p.2.2)

/-- The `UPDATE customers SET ... WHERE id = ?` statement of
`updateCustomer` (`customerController.js` lines 286-297) applied to the
row it matches: exactly the fourteen listed columns are assigned. -/
def applyCustomerUpdate (row : CustomerRow) (upd : UpdateData) : CustomerRow :=
  { row with
    name := upd.name
    email := upd.email
    phone := upd.phone
    company := upd.company
    status := upd.status
    tags := upd.tags
    notes := upd.notes
    lastContactDate := upd.lastContactDate
    value := upd.value
    industry := upd.industry
    source := upd.source
    assignedTo := upd.assignedTo
    updatedBy := upd.updatedBy
    updatedAt := upd.updatedAt }

/-- A `leads` row, projected to the columns the cascade claim needs:
`id TEXT PRIMARY KEY` and `customerId TEXT NOT NULL` with
`FOREIGN KEY (customerId) REFERENCES customers(id) ON DELETE CASCADE`
(`database.js` lines 112-135). -/
structure LeadRow where
  id : String
  customerId : String
deriving DecidableEq, Repr

/-- The relational store's `customers` and `leads` tables. -/
structure CrmStore where
  customers : List CustomerRow
  leads : List LeadRow
deriving DecidableEq, Repr

/-- `SELECT * FROM leads WHERE id = ?` (first matching row). -/
def getLeadById (s : CrmStore) (lid : String) : Option LeadRow :=
  s.leads.find? (fun l => l.id = lid)

/-- `deleteCustomer` from `customerController.js` lines 341-378 at the
store level: `none` when no such customer (404), else the store after
`DELETE FROM customers WHERE id = ?`.  Because `database.js` enables
`PRAGMA foreign_keys = ON` (line 29) and `leads.customerId` declares
`ON DELETE CASCADE` (line 129), the engine also removes every lead whose
`customerId` is the deleted id. -/
def deleteCustomerCascade (s : CrmStore) (cid : String) : Option CrmStore :=
  match s.customers.find? (fun c => c.id = cid) with
  | none => none
  | some _ =>
    some { customers := s.customers.filter (fun c => ¬ c.id = cid),
           leads := s.leads.filter (fun l => ¬ l.customerId = cid) }

/-! ## Theorems -/

/-- C8: the code is not fail-closed over arbitrary role/resource
strings.  JS property access walks the prototype chain, so role
`constructor` reaches the inherited `Object` constructor, resource
`name` then reaches the string `"Object"`, and
`"Object".includes("Obj")` returns true — although the matrix has no
entry for that role/resource; with a listed role, resource
`constructor` reaches a truthy function and the `.includes` call throws
a `TypeError` instead of returning false.  Keys that hit neither the
matrix nor the prototype chain do return false, which is the fail-closed
behaviour the guards intend for every unknown key. -/
theorem hasPermission_prototype_chain_leak :
    hasPermission (some (Principal.mk "u1" "constructor" none)) "name" "Obj" =
      .ret true ∧
    matrixActions "constructor" "name" = [] ∧
    hasPermission (some (Principal.mk "u1" "admin" none)) "constructor" "read" =
      .throw ∧
    hasPermission (some (Principal.mk "u1" "nosuchrole" none)) "customers" "read" =
      .ret false ∧
    hasPermission (some (Principal.mk "u1" "admin" none)) "nosuchresource" "read" =
      .ret false := by
  decide

/-- C1 counterexample: a manager who owns a record outside their team.
`canAccessRecord` grants access through the `ownerId` fall-through
(`rbac.js` line 55), yet the record's `teamId` differs from the
manager's, refuting `canAccessRecord(m, r) == (r.teamId == m.teamId)`. -/
theorem manager_access_not_team_iff :
    (Principal.mk "u1" "manager" (some "t1")).role = "manager" ∧
    canAccessRecord (some (Principal.mk "u1" "manager" (some "t1")))
      (some (OwnedRecord.mk (some "u1") (some "t2") none)) = true ∧
    (OwnedRecord.mk (some "u1") (some "t2") none).teamId ≠
      (Principal.mk "u1" "manager" (some "t1")).teamId := by
  decide

/-- C1 amended: for a manager `m`, `canAccessRecord(m, r)` is true iff
`r.teamId == m.teamId` OR `r.ownerId == m.id` OR `r.assignedTo == m.id`
— the team clause plus the ownership/assignment fall-through that applies
to every non-admin role. -/
theorem manager_access_characterization (m : Principal) (r : OwnedRecord)
    (hrole : m.role = "manager") :
    canAccessRecord (some m) (some r) = true ↔
      (r.teamId = m.teamId ∨ r.ownerId = some m.id ∨ r.assignedTo = some m.id) := by
  simp only [canAccessRecord, hrole]
  split_ifs with h1 h2 h3 h4
  · exact absurd h1 (by decide)
  · simp [h2.2]
  · simp [h3]
  · simp [h4]
  · simp only [Bool.false_eq_true, false_iff]
    rintro (h | h | h)
    · exact h2 ⟨trivial, h⟩
    · exact h3 h
    · exact h4 h

/-- C1 amended, witness: a manager accessing an owned, off-team record. -/
theorem manager_access_characterization_witness :
    canAccessRecord (some (Principal.mk "u1" "manager" (some "t1")))
        (some (OwnedRecord.mk (some "u1") (some "t2") none)) = true ↔
      ((OwnedRecord.mk (some "u1") (some "t2") none).teamId =
          (Principal.mk "u1" "manager" (some "t1")).teamId ∨
        (OwnedRecord.mk (some "u1") (some "t2") none).ownerId =
          some (Principal.mk "u1" "manager" (some "t1")).id ∨
        (OwnedRecord.mk (some "u1") (some "t2") none).assignedTo =
          some (Principal.mk "u1" "manager" (some "t1")).id) :=
  manager_access_characterization
    (Principal.mk "u1" "manager" (some "t1"))
    (OwnedRecord.mk (some "u1") (some "t2") none) rfl

/-- C6: in `requireRecordAccess`, for an authenticated principal and a
present record id, a missing record yields 404 `notFound`, and an
existing record failing `canAccessRecord` yields 403 `forbidden`; the
existence check (the fetch) happens before the access predicate. -/
theorem record_access_notfound_then_forbidden (u : Principal) (rid : String)
    (fetch : String → Option OwnedRecord) (hrid : rid ≠ "") :
    (fetch rid = none →
       requireRecordAccess (some u) (some rid) fetch = .notFound) ∧
    (∀ r, fetch rid = some r → canAccessRecord (some u) (some r) = false →
       requireRecordAccess (some u) (some rid) fetch = .forbidden) := by
  constructor
  · intro h
    simp [requireRecordAccess, truthyStr, hrid, h]
  · intro r h hc
    simp [requireRecordAccess, truthyStr, hrid, h, hc]

/-- C6 witness: a sales rep hitting a missing record id (404) and an
existing record owned and assigned elsewhere (403). -/
theorem record_access_notfound_then_forbidden_witness :
    requireRecordAccess (some (Principal.mk "u2" "sales_rep" none)) (some "c9")
        (fun _ => none) = .notFound ∧
    requireRecordAccess (some (Principal.mk "u2" "sales_rep" none)) (some "c1")
        (fun _ => some (OwnedRecord.mk (some "owner") (some "t1") none)) = .forbidden :=
  ⟨(record_access_notfound_then_forbidden (Principal.mk "u2" "sales_rep" none) "c9"
      (fun _ => none) (by decide)).1 rfl,
   (record_access_notfound_then_forbidden (Principal.mk "u2" "sales_rep" none) "c1"
      (fun _ => some (OwnedRecord.mk (some "owner") (some "t1") none)) (by decide)).2
     (OwnedRecord.mk (some "owner") (some "t1") none) rfl (by decide)⟩

/-- C2 counterexample: a manager whose `teamId` is `NULL`.  `getDataFilter`
emits `{teamId: null}`, `buildWhereClause`'s truthiness guard
(`rbac.js` line 207) then emits no team condition, so a row of a
different team passes the list filter even though its `teamId` does not
equal the principal's. -/
theorem list_filter_null_team_manager :
    (Principal.mk "m1" "manager" none).role = "manager" ∧
    rowPasses (fun (b : Bool) _ => b)
      (listWhere (Principal.mk "m1" "manager" none) (none : Option Bool))
      (ListRow.mk (some "u7") (some "t1")) = true ∧
    (ListRow.mk (some "u7") (some "t1")).teamId ≠
      (Principal.mk "m1" "manager" none).teamId := by
  decide

/-- C2 amended: the row filter of the list endpoints is: no restriction
for admin; for a manager with a non-null, non-empty `teamId`, restriction
to rows whose `teamId` equals it (a manager with a null `teamId` gets no
restriction, by the truthiness guard); for a sales rep with a non-empty
id, restriction to rows whose `ownerId` equals the principal's id; in
each case AND-ed with the caller-supplied conditions. -/
theorem list_filter_by_role {β : Type} (evalBase : β → ListRow → Bool)
    (u : Principal) (baseWhere : Option β) (row : ListRow) :
    (u.role = "admin" →
       rowPasses evalBase (listWhere u baseWhere) row =
         basePass evalBase baseWhere row) ∧
    (u.role = "manager" → truthyStr u.teamId = true →
       rowPasses evalBase (listWhere u baseWhere) row =
         (basePass evalBase baseWhere row && row.teamId = u.teamId)) ∧
    (u.role = "manager" → truthyStr u.teamId = false →
       rowPasses evalBase (listWhere u baseWhere) row =
         basePass evalBase baseWhere row) ∧
    (u.role = "sales_rep" → u.id ≠ "" →
       rowPasses evalBase (listWhere u baseWhere) row =
         (basePass evalBase baseWhere row && row.ownerId = some u.id)) := by
  refine ⟨?_, ?_, ?_, ?_⟩
  · intro hrole
    cases baseWhere <;>
      simp [listWhere, getDataFilter, hrole, buildWhereClause, truthyStr,
        rowPasses, evalCond, basePass]
  · intro hrole htruthy
    cases ht : u.teamId with
    | none => rw [ht] at htruthy; simp [truthyStr] at htruthy
    | some t =>
      rw [ht] at htruthy
      have htne : t ≠ "" := by simpa [truthyStr] using htruthy
      cases baseWhere <;>
        simp [listWhere, getDataFilter, hrole, buildWhereClause, truthyStr, ht,
          htne, rowPasses, evalCond, basePass]
  · intro hrole hfalsy
    cases ht : u.teamId with
    | none =>
      cases baseWhere <;>
        simp [listWhere, getDataFilter, hrole, buildWhereClause, truthyStr, ht,
          rowPasses, evalCond, basePass]
    | some t =>
      rw [ht] at hfalsy
      have hte : t = "" := by simpa [truthyStr] using hfalsy
      cases baseWhere <;>
        simp [listWhere, getDataFilter, hrole, buildWhereClause, truthyStr, ht,
          hte, rowPasses, evalCond, basePass]
  · intro hrole hid
    cases baseWhere <;>
      simp [listWhere, getDataFilter, hrole, buildWhereClause, truthyStr, hid,
        rowPasses, evalCond, basePass]

/-- C2 amended, witness: the three roles on concrete rows — admin
unrestricted, manager with team `t1` restricted to `t1` rows, sales rep
restricted to own rows, each conjoined with a base condition. -/
theorem list_filter_by_role_witness :
    (rowPasses (fun (b : Bool) _ => b)
        (listWhere (Principal.mk "a1" "admin" none) (some true))
        (ListRow.mk (some "x") none) =
      basePass (fun (b : Bool) _ => b) (some true) (ListRow.mk (some "x") none)) ∧
    (rowPasses (fun (b : Bool) _ => b)
        (listWhere (Principal.mk "m1" "manager" (some "t1")) (some true))
        (ListRow.mk (some "x") (some "t1")) =
      (basePass (fun (b : Bool) _ => b) (some true) (ListRow.mk (some "x") (some "t1")) &&
        (ListRow.mk (some "x") (some "t1")).teamId =
          (Principal.mk "m1" "manager" (some "t1")).teamId)) ∧
    (rowPasses (fun (b : Bool) _ => b)
        (listWhere (Principal.mk "s1" "sales_rep" (some "t1")) (some true))
        (ListRow.mk (some "s1") (some "t1")) =
      (basePass (fun (b : Bool) _ => b) (some true) (ListRow.mk (some "s1") (some "t1")) &&
        (ListRow.mk (some "s1") (some "t1")).ownerId =
          some (Principal.mk "s1" "sales_rep" (some "t1")).id)) :=
  ⟨(list_filter_by_role (fun (b : Bool) _ => b) (Principal.mk "a1" "admin" none)
      (some true) (ListRow.mk (some "x") none)).1 rfl,
   (list_filter_by_role (fun (b : Bool) _ => b) (Principal.mk "m1" "manager" (some "t1"))
      (some true) (ListRow.mk (some "x") (some "t1"))).2.1 rfl (by decide),
   (list_filter_by_role (fun (b : Bool) _ => b) (Principal.mk "s1" "sales_rep" (some "t1"))
      (some true) (ListRow.mk (some "s1") (some "t1"))).2.2.2 rfl (by decide)⟩

/-- C10: `updateCustomer`'s UPDATE statement assigns only the fourteen
mutable columns, so `id`, `ownerId`, `teamId`, `createdBy` and
`createdAt` are unchanged whatever the request body supplies (including
body fields named `id`/`ownerId`/`teamId`/`createdBy`/`createdAt`, which
no line of the controller reads). -/
theorem update_customer_frame (row : CustomerRow) (body : UpdateBody)
    (userId now : String) :
    (applyCustomerUpdate row (mkUpdateData body row userId now)).id = row.id ∧
    (applyCustomerUpdate row (mkUpdateData body row userId now)).ownerId = row.ownerId ∧
    (applyCustomerUpdate row (mkUpdateData body row userId now)).teamId = row.teamId ∧
    (applyCustomerUpdate row (mkUpdateData body row userId now)).createdBy = row.createdBy ∧
    (applyCustomerUpdate row (mkUpdateData body row userId now)).createdAt = row.createdAt :=
  ⟨rfl, rfl, rfl, rfl, rfl⟩

/-- C9: deleting a customer removes every lead whose `customerId` is the
deleted id (`ON DELETE CASCADE` with foreign keys enabled), so leads
owned by the customer are no longer retrievable by id.  The hypotheses
say the leads with ids `l1`, `l2` (unique by primary key) belong to
customer `cid`, and that the delete succeeded. -/
theorem delete_customer_cascades_leads (s : CrmStore) (cid l1 l2 : String)
    (s' : CrmStore)
    (h1 : ∀ l ∈ s.leads, l.id = l1 → l.customerId = cid)
    (h2 : ∀ l ∈ s.leads, l.id = l2 → l.customerId = cid)
    (hdel : deleteCustomerCascade s cid = some s') :
    getLeadById s' l1 = none ∧ getLeadById s' l2 = none := by
  have hleads : s'.leads = s.leads.filter (fun l => ¬ l.customerId = cid) := by
    unfold deleteCustomerCascade at hdel
    cases hfind : s.customers.find? (fun c => c.id = cid) with
    | none => rw [hfind] at hdel; exact absurd hdel (by simp)
    | some c =>
      rw [hfind] at hdel
      cases hdel
      rfl
  constructor
  · rw [getLeadById, hleads, List.find?_eq_none]
    intro l hl
    have hmem := List.mem_filter.mp hl
    have hnc : ¬ l.customerId = cid := by simpa using hmem.2
    simp only [decide_eq_true_eq]
    intro hid
    exact hnc (h1 l hmem.1 hid)
  · rw [getLeadById, hleads, List.find?_eq_none]
    intro l hl
    have hmem := List.mem_filter.mp hl
    have hnc : ¬ l.customerId = cid := by simpa using hmem.2
    simp only [decide_eq_true_eq]
    intro hid
    exact hnc (h2 l hmem.1 hid)

/-- C9 witness: customer `C1` owning leads `L1`, `L2` (a third lead of
another customer survives); both are gone after the delete. -/
theorem delete_customer_cascades_leads_witness :
    getLeadById
        (CrmStore.mk []
          [LeadRow.mk "L3" "C2"]) "L1" = none ∧
    getLeadById
        (CrmStore.mk []
          [LeadRow.mk "L3" "C2"]) "L2" = none :=
  delete_customer_cascades_leads
    (CrmStore.mk
      [CustomerRow.mk "C1" (.str "Acme") .null .null .null (.str "active")
        .null .null .null "u1" .null .null .null (.num 0) .null .null .null
        (.str "2024-01-01") (.str "2024-01-01")]
      [LeadRow.mk "L1" "C1", LeadRow.mk "L2" "C1", LeadRow.mk "L3" "C2"])
    "C1" "L1" "L2"
    (CrmStore.mk [] [LeadRow.mk "L3" "C2"])
    (by decide) (by decide) (by decide)

/-- C5: when the `updateData` built by `updateCustomer` differs from the
existing row only in `status`, the audit change-set is exactly the single
entry `{status: {from, to}}`; and in general the audit writer stores only
fields whose old and new values differ. -/
theorem audit_update_changeset :
    (∀ (body : UpdateBody) (ex : CustomerRow) (userId now : String)
       (upd : UpdateData), upd = mkUpdateData body ex userId now →
       upd.name = ex.name → upd.email = ex.email → upd.phone = ex.phone →
       upd.company = ex.company → upd.tags = ex.tags → upd.notes = ex.notes →
       upd.lastContactDate = ex.lastContactDate → upd.value = ex.value →
       upd.industry = ex.industry → upd.source = ex.source →
       upd.assignedTo = ex.assignedTo → upd.updatedBy = ex.updatedBy →
       upd.updatedAt = ex.updatedAt → ¬ upd.status = ex.status →
       customerUpdateChanges ex upd = [("status", ex.status, upd.status)]) ∧
    (∀ (ex : CustomerRow) (upd : UpdateData) (p : String × JsVal × JsVal),
       p ∈ customerUpdateChanges ex upd → p.2.1 ≠ p.2.2) := by
  constructor
  · intro body ex userId now upd _ hname hemail hphone hcompany htags hnotes
      hlcd hvalue hindustry hsource hassigned hupdby hupdat hst
    have hst' : ¬ ex.status = upd.status := fun h => hst h.symm
    simp [customerUpdateChanges, customerUpdateFields, hname, hemail, hphone,
      hcompany, htags, hnotes, hlcd, hvalue, hindustry, hsource, hassigned,
      hupdby, hupdat, hst']
  · intro ex upd p hp
    have h := (List.mem_filter.mp hp).2
    simpa using h

/-- C5 witness: a status-only update (`active` → `inactive`) through
`mkUpdateData`, by the same user at the stored `updatedAt` instant;
the change-set is exactly the status entry. -/
theorem audit_update_changeset_witness :
    customerUpdateChanges
        (CustomerRow.mk "C1" (.str "Acme") .null .null (.str "Acme")
          (.str "active") .null .null (.str "2024-01-01") "u1" .null .null
          .null (.num 0) .null (.str "u1") (.str "u1")
          (.str "2024-01-01T00:00:00Z") (.str "2024-01-02T00:00:00Z"))
        (mkUpdateData { status := some (.str "inactive") }
          (CustomerRow.mk "C1" (.str "Acme") .null .null (.str "Acme")
            (.str "active") .null .null (.str "2024-01-01") "u1" .null .null
            .null (.num 0) .null (.str "u1") (.str "u1")
            (.str "2024-01-01T00:00:00Z") (.str "2024-01-02T00:00:00Z"))
          "u1" "2024-01-02T00:00:00Z") =
      [("status", .str "active", .str "inactive")] :=
  audit_update_changeset.1 { status := some (.str "inactive") }
    (CustomerRow.mk "C1" (.str "Acme") .null .null (.str "Acme")
      (.str "active") .null .null (.str "2024-01-01") "u1" .null .null
      .null (.num 0) .null (.str "u1") (.str "u1")
      (.str "2024-01-01T00:00:00Z") (.str "2024-01-02T00:00:00Z"))
    "u1" "2024-01-02T00:00:00Z" _ rfl
    (by decide) (by decide) (by decide) (by decide) (by decide) (by decide)
    (by decide) (by decide) (by decide) (by decide) (by decide) (by decide)
    (by decide) (by decide)

/-- C7: the login response for an unknown email and the response for a
known, active, non-locked user with a non-matching password are both
exactly 401 `Invalid credentials` — identical to the caller. -/
theorem login_enumeration_safe (cfg : SecurityConfig)
    (verify : String → String → Bool) (users : List DbUser)
    (email1 pw1 email2 pw2 : String) (now1 now2 : Int) (u : DbUser)
    (h1 : findUserByEmail users email1 = none)
    (h2 : findUserByEmail users email2 = some u)
    (hact : u.isActive = true)
    (hnl : isAccountLocked u now2 = false)
    (hver : verify pw2 u.password = false) :
    (login cfg verify users email1 pw1 now1).1 = .res 401 "Invalid credentials" ∧
    (login cfg verify users email2 pw2 now2).1 = .res 401 "Invalid credentials" ∧
    (login cfg verify users email1 pw1 now1).1 =
      (login cfg verify users email2 pw2 now2).1 := by
  have ha : (login cfg verify users email1 pw1 now1).1 =
      .res 401 "Invalid credentials" := by
    simp [login, h1]
  have hb : (login cfg verify users email2 pw2 now2).1 =
      .res 401 "Invalid credentials" := by
    simp [login, h2, hnl, hact, hver]
  exact ⟨ha, hb, ha.trans hb.symm⟩

/-- C7 witness: a one-user table; a ghost email and a wrong password for
the real user produce the same 401 response. -/
theorem login_enumeration_safe_witness :
    (login (SecurityConfig.mk 5 1800000) (fun p h => p = h)
        [DbUser.mk "u1" "a@b.c" "hash" true 0 none]
        "ghost@x.com" "whatever" 5).1 = .res 401 "Invalid credentials" ∧
    (login (SecurityConfig.mk 5 1800000) (fun p h => p = h)
        [DbUser.mk "u1" "a@b.c" "hash" true 0 none]
        "a@b.c" "bad" 6).1 = .res 401 "Invalid credentials" ∧
    (login (SecurityConfig.mk 5 1800000) (fun p h => p = h)
        [DbUser.mk "u1" "a@b.c" "hash" true 0 none]
        "ghost@x.com" "whatever" 5).1 =
      (login (SecurityConfig.mk 5 1800000) (fun p h => p = h)
        [DbUser.mk "u1" "a@b.c" "hash" true 0 none]
        "a@b.c" "bad" 6).1 :=
  login_enumeration_safe (SecurityConfig.mk 5 1800000) (fun p h => p = h)
    [DbUser.mk "u1" "a@b.c" "hash" true 0 none]
    "ghost@x.com" "whatever" "a@b.c" "bad" 5 6
    (DbUser.mk "u1" "a@b.c" "hash" true 0 none)
    (by decide) (by decide) (by decide) (by decide) (by decide)

/-- Helper: a failed login attempt below the threshold leaves the account
unlocked with the counter bumped; iterated over a list of attempt times
staying strictly below the threshold. -/
theorem loginSeq_fail_below (cfg : SecurityConfig)
    (verify : String → String → Bool) (email wrongPw : String) :
    ∀ (ts : List Int) (u : DbUser),
      u.email = email → u.isActive = true → verify wrongPw u.password = false →
      u.lockUntil = none →
      u.loginAttempts + ts.length < cfg.maxLoginAttempts →
      loginSeq cfg verify [u] email wrongPw ts =
        [DbUser.mk u.id u.email u.password u.isActive
          (u.loginAttempts + ts.length) none] := by
  intro ts
  induction ts with
  | nil =>
    intro u hem hact hver hlock hlt
    cases u
    simp_all [loginSeq]
  | cons t ts ih =>
    intro u hem hact hver hlock hlt
    simp only [List.length_cons] at hlt
    have hfind : findUserByEmail [u] email = some u := by
      simp [findUserByEmail, List.find?, hem]
    have hnotlocked : isAccountLocked u t = false := by
      simp [isAccountLocked, hlock]
    have hbelow : ¬ cfg.maxLoginAttempts ≤ u.loginAttempts + 1 := by omega
    have hstep : (login cfg verify [u] email wrongPw t).2 =
        [DbUser.mk u.id u.email u.password u.isActive (u.loginAttempts + 1) none] := by
      simp [login, hfind, hnotlocked, hact, hver, updateUserRow,
        incrementLoginAttempts, hbelow]
    rw [loginSeq, hstep]
    have hrec := ih
      (DbUser.mk u.id u.email u.password u.isActive (u.loginAttempts + 1) none)
      hem hact hver rfl (by simpa using by omega)
    rw [hrec]
    have harith : u.loginAttempts + 1 + ts.length =
        u.loginAttempts + (ts.length + 1) := by omega
    simp only [harith, List.length_cons]

/-- Helper: running a sequence of login attempts splits over list
append. -/
theorem loginSeq_append (cfg : SecurityConfig)
    (verify : String → String → Bool) (email pw : String) :
    ∀ (ts1 ts2 : List Int) (users : List DbUser),
      loginSeq cfg verify users email pw (ts1 ++ ts2) =
        loginSeq cfg verify (loginSeq cfg verify users email pw ts1) email pw ts2 := by
  intro ts1
  induction ts1 with
  | nil => intro ts2 users; rfl
  | cons t ts ih =>
    intro ts2 users
    rw [List.cons_append, loginSeq, loginSeq, ih]

/-- C3: starting from an active account with a clean counter, after
`maxLoginAttempts` consecutive failed logins (wrong password at times
`ts' ++ [tLast]`) the account's `lockUntil` is `tLast + lockTime`, and
the next login attempt at any `now'` inside the lockout window answers
423 `Account temporarily locked ...` for ANY supplied password —
including one that passes `verify` — because `isAccountLocked` is
checked before the password comparison. -/
theorem lockout_after_threshold (cfg : SecurityConfig)
    (verify : String → String → Bool) (u : DbUser)
    (email wrongPw anyPw : String) (ts' : List Int) (tLast now' : Int)
    (hem : u.email = email) (hact : u.isActive = true)
    (hver : verify wrongPw u.password = false)
    (hlock : u.lockUntil = none) (hatt : u.loginAttempts = 0)
    (hlen : ts'.length + 1 = cfg.maxLoginAttempts)
    (hfuture : now' < tLast + cfg.lockTime)
    (hnz : tLast + cfg.lockTime ≠ 0) :
    (login cfg verify (loginSeq cfg verify [u] email wrongPw (ts' ++ [tLast]))
        email anyPw now').1 =
      .res 423 "Account temporarily locked due to too many failed login attempts" := by
  rw [loginSeq_append]
  rw [loginSeq_fail_below cfg verify email wrongPw ts' u hem hact hver hlock
    (by omega)]
  have hfind : findUserByEmail
      [DbUser.mk u.id u.email u.password u.isActive (u.loginAttempts + ts'.length) none]
      email = some (DbUser.mk u.id u.email u.password u.isActive
        (u.loginAttempts + ts'.length) none) := by
    simp [findUserByEmail, List.find?, hem]
  have hcross : cfg.maxLoginAttempts ≤ u.loginAttempts + ts'.length + 1 := by omega
  have hstep : loginSeq cfg verify
      [DbUser.mk u.id u.email u.password u.isActive (u.loginAttempts + ts'.length) none]
      email wrongPw [tLast] =
      [DbUser.mk u.id u.email u.password u.isActive
        (u.loginAttempts + ts'.length + 1) (some (tLast + cfg.lockTime))] := by
    rw [loginSeq, loginSeq]
    simp [login, findUserByEmail, List.find?, hem, isAccountLocked, hact, hver,
      updateUserRow, incrementLoginAttempts, hcross]
  rw [hstep]
  have hfind2 : findUserByEmail
      [DbUser.mk u.id u.email u.password u.isActive
        (u.loginAttempts + ts'.length + 1) (some (tLast + cfg.lockTime))]
      email = some (DbUser.mk u.id u.email u.password u.isActive
        (u.loginAttempts + ts'.length + 1) (some (tLast + cfg.lockTime))) := by
    simp [findUserByEmail, List.find?, hem]
  have hlocked : isAccountLocked
      (DbUser.mk u.id u.email u.password u.isActive
        (u.loginAttempts + ts'.length + 1) (some (tLast + cfg.lockTime))) now' = true := by
    simp [isAccountLocked, hnz, hfuture]
  simp [login, findUserByEmail, List.find?, hem, isAccountLocked, hnz, hfuture]

/-- C3 witness: threshold 5 and a 30-minute lock window (the config
defaults); five wrong-password attempts at times 1..5, then the correct
password at time 100 still answers 423. -/
theorem lockout_after_threshold_witness :
    (login (SecurityConfig.mk 5 1800000) (fun p h => p = h)
        (loginSeq (SecurityConfig.mk 5 1800000) (fun p h => p = h)
          [DbUser.mk "u1" "a@b.c" "pw" true 0 none]
          "a@b.c" "wrong" ([1, 2, 3, 4] ++ [5]))
        "a@b.c" "pw" 100).1 =
      .res 423 "Account temporarily locked due to too many failed login attempts" :=
  lockout_after_threshold (SecurityConfig.mk 5 1800000) (fun p h => p = h)
    (DbUser.mk "u1" "a@b.c" "pw" true 0 none)
    "a@b.c" "wrong" "pw" [1, 2, 3, 4] 5 100
    (by decide) (by decide) (by decide) (by decide) (by decide) (by decide)
    (by decide) (by decide)

/-- C4: when a refresh call with token `t` succeeds, the rotation deletes
every stored row holding `t` and stores only the freshly signed `newTok`
(distinct from `t`: the new token is signed at a later instant), so a
second call presenting `t` finds no stored row and answers 401
`Invalid or expired refresh token`. -/
theorem refresh_replay_rejected (jwtVerify : String → Option String)
    (db : AuthDb) (t : String) (now1 now2 : Int)
    (id1 newTok id2 tok2 uid : String)
    (hok : (refreshCall jwtVerify db (some t) now1 id1 newTok).1 = .ok uid newTok)
    (hne : newTok ≠ t) :
    (refreshCall jwtVerify (refreshCall jwtVerify db (some t) now1 id1 newTok).2
        (some t) now2 id2 tok2).1 = .invalidOrExpired := by
  by_cases htr : truthyStr (some t) = true
  · cases hv : jwtVerify t with
    | none => exfalso; simp [refreshCall, htr, hv] at hok
    | some uid' =>
      simp only [refreshCall, htr, hv] at hok
      cases hfs : List.find?
          (fun s => decide (s.token = t) &&
            (decide (s.userId = uid') && decide (now1 < s.expiresAt))) db.tokens with
      | none =>
        exfalso
        simp [refreshCall, htr, hv, hfs] at hok
      | some srow =>
        cases hfu : List.find? (fun x => decide (x.id = uid') && x.isActive) db.users with
        | none =>
          exfalso
          simp [refreshCall, htr, hv, hfs, hfu] at hok
        | some user =>
          have hsnd : (refreshCall jwtVerify db (some t) now1 id1 newTok).2 =
              AuthDb.mk db.users
                (storeRefreshToken (removeRefreshToken db.tokens t) id1 user.id newTok now1) := by
            simp [refreshCall, htr, hv, hfs, hfu]
          have hfind2 : List.find?
              (fun s => decide (s.token = t) &&
                (decide (s.userId = uid') && decide (now2 < s.expiresAt)))
              (storeRefreshToken (removeRefreshToken db.tokens t) id1 user.id newTok now1) =
              none := by
            rw [List.find?_eq_none]
            intro x hx
            simp only [storeRefreshToken, removeRefreshToken] at hx
            have hx' := List.mem_filter.mp hx
            rcases List.mem_append.mp hx'.1 with hmem | hnew
            · have hxt : ¬ x.token = t := by
                simpa using (List.mem_filter.mp hmem).2
              simp [hxt]
            · have hxeq : x = StoredToken.mk id1 user.id newTok (now1 + sevenDaysMs) := by
                simpa using hnew
              simp [hxeq, hne]
          rw [hsnd]
          simp [refreshCall, htr, hv, hfind2]
  · exfalso
    simp [refreshCall, htr] at hok

/-- C4 witness: a one-token store; refreshing `tokA` succeeds and rotates
it to `tokB`, then replaying `tokA` is rejected. -/
theorem refresh_replay_rejected_witness :
    (refreshCall (fun s => if s = "tokA" ∨ s = "tokB" then some "u1" else none)
        ((refreshCall (fun s => if s = "tokA" ∨ s = "tokB" then some "u1" else none)
          (AuthDb.mk [DbUser.mk "u1" "a@b.c" "h" true 0 none]
            [StoredToken.mk "r1" "u1" "tokA" 1000])
          (some "tokA") 10 "r2" "tokB").2)
        (some "tokA") 20 "r3" "tokC").1 = .invalidOrExpired :=
  refresh_replay_rejected
    (fun s => if s = "tokA" ∨ s = "tokB" then some "u1" else none)
    (AuthDb.mk [DbUser.mk "u1" "a@b.c" "h" true 0 none]
      [StoredToken.mk "r1" "u1" "tokA" 1000])
    "tokA" 10 20 "r2" "tokB" "r3" "tokC" "u1"
    (by decide) (by decide)

end MiniCrm
